import Mathlib

/-
Shallow embedding of the haip-poc interview orchestration engine
(src/haip_poc/models.py, audio.py, google_stt.py, agent.py).

External effects (TTS synthesis/playback, the streaming recognition
exchange, the Gemini follow-up call, the audio-file write) are supplied
as explicit outcome values; the control flow around them is translated
from the Python source.  Machine integers do not occur on the paths
modelled here; byte strings are lists of naturals.
-/

namespace HaipPoc

/-- Python str.strip() with no argument: remove whitespace from both
ends.  Computed on the character list so that concrete inputs evaluate
inside the kernel. -/
def pyStrip (s : String) : String :=
  ⟨((s.data.dropWhile Char.isWhitespace).reverse.dropWhile Char.isWhitespace).reverse⟩

/-- Python str.upper(), character by character. -/
def pyUpper (s : String) : String :=
  ⟨s.data.map Char.toUpper⟩

/-- models.py:30-32 — FollowUp: id, text. -/
structure FollowUp where
  id : String
  text : String
  deriving Repr, DecidableEq

/-- models.py:35-39 — Question: id, text, listen_seconds (default 30, > 0),
follow_ups (default empty). -/
structure Question where
  id : String
  text : String
  listen_seconds : Nat := 30
  follow_ups : List FollowUp := []
  deriving Repr, DecidableEq

/-- models.py:14-18 — TimeTrigger: a fixed delay in whole seconds. -/
structure TimeTrigger where
  delay_seconds : Nat
  deriving Repr, DecidableEq

/-- models.py:47-49 — VoiceConfig with its defaults. -/
structure VoiceConfig where
  language_code : String := "en-US"
  name : String := "en-US-Neural2-D"
  deriving Repr, DecidableEq

/-- models.py:57-61 — Scenario: name, voice, trigger, questions. -/
structure Scenario where
  name : String
  voice : VoiceConfig := {}
  trigger : TimeTrigger
  questions : List Question
  deriving Repr, DecidableEq

/-- agent.py:141 — the argument type of `_ask`: `Question | FollowUp`. -/
inductive Item where
  | question (q : Question)
  | followUp (f : FollowUp)
  deriving Repr, DecidableEq

/-- agent.py:161 — `question.id` for either shape of item. -/
def Item.id : Item → String
  | .question q => q.id
  | .followUp f => f.id

/-- agent.py:144/148 — `question.text` for either shape of item. -/
def Item.text : Item → String
  | .question q => q.text
  | .followUp f => f.text

/-- agent.py:155 — `listen_secs = question.listen_seconds if
isinstance(question, Question) else 30`. -/
def listenSeconds : Item → Nat
  | .question q => q.listen_seconds
  | .followUp _ => 30

/- ------------------------------------------------------------------ -/
/- audio.py — AudioRecorder                                          -/
/- ------------------------------------------------------------------ -/

/-- audio.py:51-58 — the recorder's mutable state: `_frames` (the
complete-recording buffer of raw chunks), `_queue` (the delivery queue
for the streaming consumer), `_stream` (whether an input stream object
is open) and `_recording`.  All accesses below happen under `_lock` in
the source, so the state is modelled as a single value threaded through
the operations. -/
structure RecorderState where
  frames : List (List Nat)
  queue : List (List Nat)
  stream : Bool
  recording : Bool
  deriving Repr, DecidableEq

/-- audio.py:51-58 — the freshly constructed recorder. -/
def initRecorder : RecorderState :=
  { frames := [], queue := [], stream := false, recording := false }

/-- audio.py:62-79 — `start()`: no-op when already recording; otherwise
clears `_frames`, drains `_queue`, opens the input stream and sets
`_recording = True`. -/
def AudioRecorder.start (s : RecorderState) : RecorderState :=
  if s.recording then s
  else { frames := [], queue := [], stream := true, recording := true }

/-- audio.py:81-93 — `stop()`: returns the empty byte string when not
recording; otherwise asserts the stream is present, closes it, clears
`_recording` and returns `b"".join(self._frames)`. -/
def AudioRecorder.stop (s : RecorderState) : Except String (RecorderState × List Nat) :=
  if s.recording then
    if s.stream then
      .ok ({ s with stream := false, recording := false }, s.frames.flatten)
    else
      .error "AssertionError"
  else
    .ok (s, [])

/-- audio.py:118-123 — the device callback: appends the chunk to
`_frames` and pushes a copy onto `_queue`. -/
def AudioRecorder.callback (s : RecorderState) (chunk : List Nat) : RecorderState :=
  { s with frames := s.frames ++ [chunk], queue := s.queue ++ [chunk] }

/-- audio.py:99-104 — `get_chunk`: pop the next chunk from the delivery
queue, `none` on timeout (modelled as the queue being empty). -/
def AudioRecorder.get_chunk (s : RecorderState) : RecorderState × Option (List Nat) :=
  match s.queue with
  | [] => (s, none)
  | c :: rest => ({ s with queue := rest }, some c)

/- ------------------------------------------------------------------ -/
/- google_stt.py — SpeechToText.transcribe_stream                    -/
/- ------------------------------------------------------------------ -/

/-- google_stt.py:113 — the speech event type carried by a streaming
response. -/
inductive SpeechEventType where
  | unspecified
  | activityBegin
  | activityEnd
  deriving Repr, DecidableEq

/-- google_stt.py:131 — one recognition alternative (`.transcript`). -/
structure SttAlt where
  transcript : String
  deriving Repr, DecidableEq

/-- google_stt.py:129-138 — one streaming result: `is_final` and its
alternatives. -/
structure SttResult where
  is_final : Bool
  alternatives : List SttAlt
  deriving Repr, DecidableEq

/-- google_stt.py:116-138 — one streaming response: its speech event
type and its results. -/
structure SttResponse where
  speech_event_type : SpeechEventType
  results : List SttResult
  deriving Repr, DecidableEq

/-- How the response iterator terminates after delivering its listed
responses: normal exhaustion, or an exception raised by the transport
(google_stt.py:140-145 catches exactly `Cancelled` and `OutOfRange`;
anything else is `otherError`). -/
inductive StreamEnd where
  | normal
  | cancelled
  | outOfRange
  | otherError (msg : String)
  deriving Repr, DecidableEq

/-- google_stt.py:129-138 — the inner `for result in response.results`
body, threading `(speech_started, transcript_parts)`.  A final result
appends `result.alternatives[0].transcript` (an IndexError when there
is no alternative) and sets `speech_started`; interim results only feed
the optional `on_interim` callback (the orchestrator passes none). -/
def processResult (st : Bool × List String) (r : SttResult) :
    Except String (Bool × List String) :=
  if r.is_final then
    match r.alternatives with
    | [] => .error "IndexError"
    | a :: _ => .ok (true, st.2 ++ [a.transcript])
  else
    .ok st

/-- google_stt.py:116-138 — the body of `for response in responses`.
On SPEECH_ACTIVITY_END with speech already started the source calls
`recorder.signal_stop()` (google_stt.py:127); `AudioRecorder`
(audio.py:36-123) defines no attribute `signal_stop`, so that call
raises `AttributeError`, which none of the handlers at
google_stt.py:140-145 catches. -/
def processResponse (st : Bool × List String) (resp : SttResponse) :
    Except String (Bool × List String) :=
  match
    (match resp.speech_event_type with
     | .activityBegin => Except.ok (true, st.2)
     | .activityEnd =>
         if st.1 then Except.error "AttributeError: signal_stop" else Except.ok st
     | .unspecified => Except.ok st) with
  | .error e => .error e
  | .ok st1 => resp.results.foldlM processResult st1

/-- Fold of `processResponse` over the delivered responses, starting
from `speech_started = False`, `transcript_parts = []`
(google_stt.py:109-110). -/
def processResponses (rs : List SttResponse) : Except String (Bool × List String) :=
  rs.foldlM processResponse (false, [])

/-- google_stt.py:87-147 — `transcribe_stream`, as a function of the
responses the service delivers and of how the response stream ends.
Exceptions raised while handling a delivered response propagate; once
the delivered responses are consumed, `Cancelled` and `OutOfRange` from
the transport are swallowed and any other transport error propagates;
on every non-raising path the function returns
`" ".join(transcript_parts).strip()`. -/
def transcribe_stream (rs : List SttResponse) (ending : StreamEnd) :
    Except String String :=
  match processResponses rs with
  | .error e => .error e
  | .ok st =>
    match ending with
    | .otherError msg => .error msg
    | _ => .ok (pyStrip (String.intercalate " " st.2))

/-- google_stt.py:167 — the request generator's loop condition: it keeps
yielding chunks while `time.monotonic() < deadline` and
`recorder.is_recording`; no stop signal is consulted. -/
def generatorContinues (now deadline : Nat) (recording : Bool) : Bool :=
  decide (now < deadline) && recording

/- ------------------------------------------------------------------ -/
/- agent.py — InterviewAgent                                         -/
/- ------------------------------------------------------------------ -/

/-- agent.py:167-173 — one transcript entry.  The wall-clock timestamp
of agent.py:172 is modelled as an abstract natural. -/
structure TranscriptEntry where
  question_id : String
  question_text : String
  response_transcript : String
  audio_file : String
  timestamp : Nat
  deriving Repr, DecidableEq

/-- The outcomes the environment supplies to one execution of `_ask`
(agent.py:141-175): the TTS synthesize-and-play step, the value or
exception produced by `transcribe_stream`, the raw audio returned by
`recorder.stop()`, whether `save_wav` succeeds when it is attempted,
the Gemini reply (or a service exception, payload-free), and the entry
timestamp. -/
structure AskOutcome where
  tts : Except String Unit
  stt : Except String String
  raw_audio : List Nat
  save_ok : Bool
  gemini : Except Unit String
  timestamp : Nat
  deriving Repr

/-- What one non-raising execution of agent.py:141-175 produces: the
appended entry and whether a wav file was written. -/
structure AskResult where
  entry : TranscriptEntry
  wav_written : Bool
  deriving Repr, DecidableEq

/-- agent.py:141-175 — the speak / listen / persist / append part of
`_ask`, up to and including the construction of the transcript entry.
The method has no exception handler: a TTS or STT exception, or a
`save_wav` exception (agent.py:163-164 — the write is attempted exactly
when `raw_audio` is non-empty and is not wrapped in try/except),
propagates out.  The entry (agent.py:167-173) always carries
`audio_file = str(wav_path)` with `wav_path = output_dir / f"{q_id}.wav"`
(agent.py:162), whether or not a wav file was written. -/
def askStep (outDir : String) (item : Item) (o : AskOutcome) :
    Except String AskResult :=
  match o.tts with
  | .error e => .error e
  | .ok _ =>
    match o.stt with
    | .error e => .error e
    | .ok transcript =>
      let wav_path := outDir ++ "/" ++ item.id ++ ".wav"
      let entry : TranscriptEntry :=
        { question_id := item.id
          question_text := item.text
          response_transcript := transcript
          audio_file := wav_path
          timestamp := o.timestamp }
      if o.raw_audio.isEmpty then
        .ok { entry := entry, wav_written := false }
      else if o.save_ok then
        .ok { entry := entry, wav_written := true }
      else
        .error "save_wav failed"

/-- agent.py:200-233 — `_select_follow_up`.  Returns the chosen
follow-up (or none) together with the log lines the call emits.  The
whole body sits in one try/except: a Gemini exception yields `None`
with an exception log; otherwise the reply is stripped, compared
case-insensitively to the sentinel NONE, then matched against the
candidate ids in order; an unmatched reply logs a warning and yields
`None`.  There is no retry. -/
def select_follow_up (q : Question) (g : Except Unit String) :
    Option FollowUp × List String :=
  match g with
  | .error _ => (none, ["Gemini follow-up selection failed"])
  | .ok reply =>
    let choice := pyStrip reply
    let logs := ["Gemini follow-up choice: " ++ choice]
    if pyUpper choice = "NONE" then (none, logs)
    else
      match q.follow_ups.find? (fun fu => fu.id == choice) with
      | some fu => (some fu, logs)
      | none => (none, logs ++ ["Gemini returned unknown follow-up id: " ++ choice])

/-- agent.py:181-185 — the follow-up decision made after the entry is
appended: the selector is invoked exactly when the asked item is a
top-level `Question` with a non-empty candidate list and the transcript
is non-empty after stripping.  First component: whether the selector
was invoked; second: the follow-up to ask, if any. -/
def decideFollowUp (item : Item) (transcript : String) (g : Except Unit String) :
    Bool × Option FollowUp :=
  match item with
  | .question q =>
    if q.follow_ups ≠ [] ∧ pyStrip transcript ≠ "" then
      (true, (select_follow_up q g).1)
    else
      (false, none)
  | .followUp _ => (false, none)

/-- Ordering measure for the recursion of `_ask`: a follow-up ask never
recurses further, a top-level ask may recurse once into its follow-up. -/
def Item.tag : Item → Nat
  | .question _ => 1
  | .followUp _ => 0

/-- agent.py:133-189 — the interview loop from the point where `item`
is the active item and `rest` the remaining top-level questions.  `env`
supplies the outcome of the k-th ask.  Mirrors `_ask`: run the
speak/listen/persist step, append the entry, decide the follow-up; on a
chosen follow-up recurse into it without advancing the index
(agent.py:183-185); otherwise advance to the next top-level question or
finish (agent.py:188-189, 133-136). -/
def askFrom (outDir : String) (env : Nat → AskOutcome) :
    Item → List Question → Nat → List TranscriptEntry →
    Except String (List TranscriptEntry)
  | item, rest, k, acc =>
    match askStep outDir item (env k) with
    | .error e => .error e
    | .ok r =>
      match item with
      | .question q =>
        match decideFollowUp (.question q) r.entry.response_transcript ((env k).gemini) with
        | (_, some fu) =>
            askFrom outDir env (.followUp fu) rest (k + 1) (acc ++ [r.entry])
        | (_, none) =>
            match rest with
            | [] => .ok (acc ++ [r.entry])
            | q2 :: rest2 =>
                askFrom outDir env (.question q2) rest2 (k + 1) (acc ++ [r.entry])
      | .followUp _ =>
        -- agent.py:181 – `isinstance(question, Question)` is false for a
        -- follow-up, so the decision is skipped and the index advances.
        match rest with
        | [] => .ok (acc ++ [r.entry])
        | q2 :: rest2 =>
            askFrom outDir env (.question q2) rest2 (k + 1) (acc ++ [r.entry])
  termination_by item rest _ _ => 2 * rest.length + item.tag
  decreasing_by
  all_goals simp [Item.tag]
  all_goals omega

/-- agent.py:133-136 — `_ask_current_question`: finish when no question
remains, otherwise ask the current one. -/
def advance (outDir : String) (env : Nat → AskOutcome) :
    List Question → Nat → List TranscriptEntry →
    Except String (List TranscriptEntry)
  | [], _, acc => .ok acc
  | q :: rest, k, acc => askFrom outDir env (.question q) rest k acc

/-- agent.py:237-245 — the document `_save_transcript` serializes:
scenario name, completion timestamp, entries in append order. -/
structure TranscriptDoc where
  scenario : String
  completed_at : Nat
  entries : List TranscriptEntry
  deriving Repr, DecidableEq

/-- agent.py:127-129, 133-136, 191-196, 237-245 — one interview run:
the loop over the scenario's questions starting at index 0 with an
empty transcript, then the flush at `Done`.  An uncaught exception from
an ask aborts the run before any flush. -/
def runInterview (outDir : String) (env : Nat → AskOutcome) (doneTs : Nat)
    (s : Scenario) : Except String TranscriptDoc :=
  match advance outDir env s.questions 0 [] with
  | .error e => .error e
  | .ok entries => .ok { scenario := s.name, completed_at := doneTs, entries := entries }

/- ------------------------------------------------------------------ -/
/- Concrete fixtures (the end-to-end scenario of the repository's    -/
/- docs: one question with one follow-up, then a plain question)     -/
/- ------------------------------------------------------------------ -/

deriving instance DecidableEq for Except

/-- The follow-up of the demo scenario. -/
def fuW : FollowUp := { id := "q1_f1", text := "Why?" }

/-- The first demo question, carrying one follow-up candidate. -/
def qW : Question :=
  { id := "q1", text := "How was it?", listen_seconds := 5, follow_ups := [fuW] }

/-- A second demo question without follow-ups. -/
def q2W : Question := { id := "q2", text := "Anything else?" }

/-- The demo scenario. -/
def scenW : Scenario :=
  { name := "demo", trigger := { delay_seconds := 1 }, questions := [qW, q2W] }

/-- A fully successful ask outcome with the given Gemini reply and
timestamp. -/
def okOutcome (reply : String) (ts : Nat) : AskOutcome :=
  { tts := .ok (), stt := .ok "it was confusing", raw_audio := [1, 2],
    save_ok := true, gemini := .ok reply, timestamp := ts }

/-- Environment in which the first ask selects the follow-up and every
later one declines. -/
def envFuW : Nat → AskOutcome :=
  fun k => okOutcome (if k = 0 then "q1_f1" else "NONE") k

/-- Environment in which Gemini always replies NONE. -/
def envNoneW : Nat → AskOutcome := fun k => okOutcome "NONE" k

/-- An ask whose audio write fails. -/
def oSaveFailW : AskOutcome :=
  { tts := .ok (), stt := .ok "yes", raw_audio := [7], save_ok := false,
    gemini := .ok "NONE", timestamp := 0 }

/-- An ask whose transcript is whitespace only and whose captured audio
is empty. -/
def oEmptyW : AskOutcome :=
  { tts := .ok (), stt := .ok "   ", raw_audio := [], save_ok := true,
    gemini := .ok "q1_f1", timestamp := 0 }

/-- The ask result of `qW` under `envFuW` at step 0. -/
def rParentW : AskResult :=
  { entry := { question_id := "q1", question_text := "How was it?",
               response_transcript := "it was confusing",
               audio_file := "out/q1.wav", timestamp := 0 },
    wav_written := true }

/-- The ask result of `fuW` under `envFuW` at step 1. -/
def rFuW : AskResult :=
  { entry := { question_id := "q1_f1", question_text := "Why?",
               response_transcript := "it was confusing",
               audio_file := "out/q1_f1.wav", timestamp := 1 },
    wav_written := true }

/-- The ask result of `qW` under `oEmptyW`. -/
def rEmptyW : AskResult :=
  { entry := { question_id := "q1", question_text := "How was it?",
               response_transcript := "   ",
               audio_file := "out/q1.wav", timestamp := 0 },
    wav_written := false }

/-- One delivered streaming response holding one final result. -/
def rsPartialW : List SttResponse :=
  [{ speech_event_type := .unspecified,
     results := [{ is_final := true, alternatives := [{ transcript := "partial answer" }] }] }]

/- ------------------------------------------------------------------ -/
/- Helper lemmas                                                     -/
/- ------------------------------------------------------------------ -/

/-- When none of the external steps raises, `askStep` returns the entry
built at agent.py:167-173, with the audio write recorded exactly when
the captured audio was non-empty. -/
theorem askStep_eq_ok (outDir : String) (item : Item) (o : AskOutcome) (t : String)
    (h1 : o.tts = .ok ()) (h2 : o.stt = .ok t)
    (h3 : o.raw_audio = [] ∨ o.save_ok = true) :
    askStep outDir item o =
      .ok { entry := { question_id := item.id, question_text := item.text,
                       response_transcript := t,
                       audio_file := outDir ++ "/" ++ item.id ++ ".wav",
                       timestamp := o.timestamp },
            wav_written := !o.raw_audio.isEmpty } := by
  unfold askStep
  rw [h1, h2]
  rcases h3 with h | h
  · simp [h]
  · by_cases he : o.raw_audio.isEmpty = true <;> simp [he, h]

/-- The decision of agent.py:181-185 selects nothing whenever the
selector would select nothing (and trivially for a follow-up item). -/
theorem decideFollowUp_snd_none (item : Item) (t : String) (g : Except Unit String)
    (h : ∀ q : Question, (select_follow_up q g).1 = none) :
    (decideFollowUp item t g).2 = none := by
  cases item with
  | question q =>
    show (if q.follow_ups ≠ [] ∧ pyStrip t ≠ "" then (true, (select_follow_up q g).1)
          else (false, none)).2 = none
    by_cases hc : q.follow_ups ≠ [] ∧ pyStrip t ≠ ""
    · rw [if_pos hc]
      exact h q
    · rw [if_neg hc]
  | followUp f => rfl

/-- One loop step of `_ask` in which no follow-up is chosen: the entry
is appended and the loop advances to the next top-level question. -/
theorem askFrom_step_noFu (outDir : String) (env : Nat → AskOutcome) (item : Item)
    (rest : List Question) (k : Nat) (acc : List TranscriptEntry) (r : AskResult)
    (hstep : askStep outDir item (env k) = .ok r)
    (hdec : (decideFollowUp item r.entry.response_transcript ((env k).gemini)).2 = none) :
    askFrom outDir env item rest k acc =
      advance outDir env rest (k + 1) (acc ++ [r.entry]) := by
  cases item with
  | question q =>
    rcases hd : decideFollowUp (.question q) r.entry.response_transcript ((env k).gemini)
      with ⟨b, ofu⟩
    rw [hd] at hdec
    have hofu : ofu = none := hdec
    subst hofu
    rw [askFrom]
    split
    · next e heq => rw [hstep] at heq; cases heq
    · next r2 heq =>
      rw [hstep] at heq
      injection heq with h2
      subst h2
      split
      · rename_i a heq2
        injection heq2 with ha
        subst ha
        rw [hd]
        cases rest <;> simp [advance]
      · rename_i a heq2
        cases heq2
  | followUp f =>
    rw [askFrom, hstep]
    cases rest <;> simp [advance]

/-- When the captured audio is non-empty and the wav write fails, the
exception propagates out of `askStep` (agent.py:163-164 wraps
`save_wav` in no handler). -/
theorem askStep_eq_save_error (outDir : String) (item : Item) (o : AskOutcome)
    (t : String) (h1 : o.tts = .ok ()) (h2 : o.stt = .ok t)
    (h3 : o.raw_audio ≠ []) (h4 : o.save_ok = false) :
    askStep outDir item o = .error "save_wav failed" := by
  unfold askStep
  rw [h1, h2]
  have he : o.raw_audio.isEmpty = false := by
    cases hr : o.raw_audio with
    | nil => exact absurd hr h3
    | cons a l => rfl
  rw [he, h4]
  rfl

/-- The branch structure of `_select_follow_up` on a successful Gemini
call, written out once. -/
theorem select_follow_up_ok_eq (q : Question) (reply : String) :
    select_follow_up q (.ok reply) =
      if pyUpper (pyStrip reply) = "NONE"
      then (none, ["Gemini follow-up choice: " ++ pyStrip reply])
      else
        match q.follow_ups.find? (fun f => f.id == pyStrip reply) with
        | some fu => (some fu, ["Gemini follow-up choice: " ++ pyStrip reply])
        | none => (none, ["Gemini follow-up choice: " ++ pyStrip reply,
                          "Gemini returned unknown follow-up id: " ++ pyStrip reply]) := rfl

/-- Under an environment in which every ask succeeds and the selector
never picks a follow-up, the loop over `qs` appends exactly one entry
per question, carrying the question ids in order. -/
theorem advance_ids (outDir : String) (env : Nat → AskOutcome)
    (henv : ∀ k, (env k).tts = .ok () ∧ (∃ t, (env k).stt = .ok t) ∧
                 ((env k).raw_audio = [] ∨ (env k).save_ok = true))
    (hsel : ∀ (q : Question) (k : Nat), (select_follow_up q ((env k).gemini)).1 = none) :
    ∀ (qs : List Question) (k : Nat) (acc : List TranscriptEntry),
      ∃ new, advance outDir env qs k acc = .ok (acc ++ new) ∧
        new.map TranscriptEntry.question_id = qs.map Question.id := by
  intro qs
  induction qs with
  | nil => exact fun k acc => ⟨[], by simp [advance], rfl⟩
  | cons q rest ih =>
    intro k acc
    obtain ⟨h1, ⟨t, h2⟩, h3⟩ := henv k
    have hstep := askStep_eq_ok outDir (.question q) (env k) t h1 h2 h3
    have hdec := decideFollowUp_snd_none (.question q) t ((env k).gemini)
      (fun q' => hsel q' k)
    have hfr := askFrom_step_noFu outDir env (.question q) rest k acc _ hstep hdec
    obtain ⟨new, hnew, hmap⟩ := ih (k + 1)
      (acc ++ [{ question_id := q.id, question_text := q.text,
                 response_transcript := t,
                 audio_file := outDir ++ "/" ++ q.id ++ ".wav",
                 timestamp := (env k).timestamp }])
    refine ⟨{ question_id := q.id, question_text := q.text,
              response_transcript := t,
              audio_file := outDir ++ "/" ++ q.id ++ ".wav",
              timestamp := (env k).timestamp } :: new, ?_, ?_⟩
    · show askFrom outDir env (.question q) rest k acc = _
      rw [hfr]
      exact hnew.trans (by simp)
    · simp [hmap]

/- ------------------------------------------------------------------ -/
/- Claims                                                            -/
/- ------------------------------------------------------------------ -/

/-- C1: the claim says a speech-activity-end event after speech has
begun makes the adapter invoke the pipeline's signalStop operation so
the listen step ends before the timeout.  The source instead calls
`recorder.signal_stop()` (google_stt.py:127) on an `AudioRecorder` that
defines no such attribute (audio.py:36-123), so the handler raises an
uncaught AttributeError: evaluated here on a response stream that emits
SPEECH_ACTIVITY_BEGIN and then SPEECH_ACTIVITY_END. -/
theorem C1_signal_stop_attribute_error :
    transcribe_stream
      [{ speech_event_type := .activityBegin, results := [] },
       { speech_event_type := .activityEnd, results := [] }] .normal
      = .error "AttributeError: signal_stop" := rfl

/-- C2 counterexample: a transport error other than Cancelled and
OutOfRange — here a ServiceUnavailable raised after one final result
"partial answer" was delivered — propagates out of `transcribe_stream`
instead of yielding the accumulated transcript, refuting the claim that
any other transport error surfaces as a partial transcript. -/
theorem C2_counterexample :
    transcribe_stream rsPartialW (.otherError "ServiceUnavailable")
        = .error "ServiceUnavailable" ∧
    transcribe_stream rsPartialW (.otherError "ServiceUnavailable")
        ≠ .ok "partial answer" := by
  exact ⟨rfl, by decide⟩

/-- C2 amended: only the Cancelled and OutOfRange transport errors are
swallowed — `transcribe_stream` then returns the transcript accumulated
so far — while any other transport error propagates out of the
exchange. -/
theorem C2_stream_error_handling (rs : List SttResponse) (st : Bool × List String)
    (h : processResponses rs = .ok st) :
    transcribe_stream rs .cancelled = .ok (pyStrip (String.intercalate " " st.2)) ∧
    transcribe_stream rs .outOfRange = .ok (pyStrip (String.intercalate " " st.2)) ∧
    (∀ msg, transcribe_stream rs (.otherError msg) = .error msg) := by
  unfold transcribe_stream
  rw [h]
  exact ⟨rfl, rfl, fun msg => rfl⟩

/-- C2 witness: the amended statement evaluated on one delivered final
result. -/
theorem C2_stream_error_handling_witness :
    transcribe_stream rsPartialW .cancelled = .ok "partial answer" ∧
    transcribe_stream rsPartialW .outOfRange = .ok "partial answer" ∧
    (∀ msg, transcribe_stream rsPartialW (.otherError msg) = .error msg) :=
  C2_stream_error_handling rsPartialW (true, ["partial answer"]) rfl

/-- C3 counterexample: when the audio write fails (`save_wav` raises,
agent.py:163-164 has no handler), the exception propagates: `askStep`
returns the error, no entry is appended and the interview run aborts —
refuting the claim that the entry is still recorded and the session
continues. -/
theorem C3_counterexample :
    askStep "out" (.question qW) oSaveFailW = .error "save_wav failed" ∧
    runInterview "out" (fun _ => oSaveFailW) 9 scenW = .error "save_wav failed" := by
  constructor
  · rfl
  · have h1 : askStep "out" (.question qW) oSaveFailW = .error "save_wav failed" := rfl
    show (match askFrom "out" (fun _ => oSaveFailW) (.question qW) [q2W] 0 [] with
          | .error e => (.error e : Except String TranscriptDoc)
          | .ok entries => .ok { scenario := "demo", completed_at := 9, entries := entries })
        = .error "save_wav failed"
    rw [askFrom, h1]

/-- C3 amended: if writing the item's audio file fails, the exception
propagates out of the ask step uncaught: no transcript entry is
appended for the item and the interview loop aborts instead of
continuing. -/
theorem C3_save_failure_aborts (outDir : String) (item : Item) (o : AskOutcome)
    (t : String) (h1 : o.tts = .ok ()) (h2 : o.stt = .ok t)
    (h3 : o.raw_audio ≠ []) (h4 : o.save_ok = false) :
    askStep outDir item o = .error "save_wav failed" ∧
    (∀ (env : Nat → AskOutcome) (rest : List Question) (k : Nat)
       (acc : List TranscriptEntry), env k = o →
       askFrom outDir env item rest k acc = .error "save_wav failed") := by
  have hstep := askStep_eq_save_error outDir item o t h1 h2 h3 h4
  refine ⟨hstep, fun env rest k acc henv => ?_⟩
  rw [askFrom, henv, hstep]

/-- C3 witness: the amended statement at the concrete failing ask. -/
theorem C3_save_failure_aborts_witness :
    askStep "out" (.question qW) oSaveFailW = .error "save_wav failed" ∧
    askFrom "out" (fun _ => oSaveFailW) (.question qW) [] 0 []
      = .error "save_wav failed" := by
  have h := C3_save_failure_aborts "out" (.question qW) oSaveFailW "yes"
    rfl rfl (by decide) rfl
  exact ⟨h.1, h.2 (fun _ => oSaveFailW) [] 0 [] rfl⟩

/-- C4 counterexample: the fixed follow-up listen budget (30 s,
agent.py:155) is not distinct from and not longer than the Question
default `listen_seconds` (30, models.py:38) — they are equal. -/
theorem C4_counterexample :
    listenSeconds (.followUp { id := "q1_f1", text := "Why?" }) = 30 ∧
    ({ id := "q1", text := "How was it?" } : Question).listen_seconds = 30 ∧
    ¬ (listenSeconds (.followUp { id := "q1_f1", text := "Why?" }) >
        ({ id := "q1", text := "How was it?" } : Question).listen_seconds) := by
  exact ⟨rfl, rfl, by decide⟩

/-- C4 amended: a FollowUp always gets the fixed 30-second listen
budget, independent of per-Question settings; that value equals (is not
longer than) the Question default `listen_seconds` of 30; a top-level
Question is listened to for its own `listen_seconds`. -/
theorem C4_listen_budgets :
    (∀ f : FollowUp, listenSeconds (.followUp f) = 30) ∧
    (∀ q : Question, listenSeconds (.question q) = q.listen_seconds) ∧
    (∀ i t : String, ({ id := i, text := t } : Question).listen_seconds = 30) :=
  ⟨fun _ => rfl, fun _ => rfl, fun _ _ => rfl⟩

/-- C5: when the selector picks a candidate for a top-level question,
exactly one additional entry — the follow-up's — is appended
immediately after the parent's, the remaining-question list is not
advanced before the follow-up is asked, the follow-up itself never
enters follow-up evaluation, and the loop then resumes at the next
top-level question. -/
theorem C5_follow_up_insertion (outDir : String) (env : Nat → AskOutcome)
    (q : Question) (fu : FollowUp) (rest : List Question) (k : Nat)
    (acc : List TranscriptEntry) (r rf : AskResult)
    (hstep : askStep outDir (.question q) (env k) = .ok r)
    (hdec : decideFollowUp (.question q) r.entry.response_transcript ((env k).gemini)
              = (true, some fu))
    (hstep2 : askStep outDir (.followUp fu) (env (k + 1)) = .ok rf) :
    decideFollowUp (.followUp fu) rf.entry.response_transcript ((env (k + 1)).gemini)
        = (false, none) ∧
    askFrom outDir env (.question q) rest k acc =
      advance outDir env rest (k + 2) (acc ++ [r.entry, rf.entry]) := by
  refine ⟨rfl, ?_⟩
  have hinner := askFrom_step_noFu outDir env (.followUp fu) rest (k + 1)
    (acc ++ [r.entry]) rf hstep2 rfl
  rw [askFrom]
  split
  · next e heq => rw [hstep] at heq; cases heq
  · next r2 heq =>
    rw [hstep] at heq
    injection heq with h2
    subst h2
    split
    · rename_i a heq2
      injection heq2 with ha
      subst ha
      rw [hdec]
      show askFrom outDir env (.followUp fu) rest (k + 1) (acc ++ [r.entry]) = _
      rw [hinner]
      simp [List.append_assoc]
    · rename_i a heq2
      cases heq2

/-- C5 witness: the demo scenario, with the selector replying q1_f1 for
the first ask and NONE afterwards. -/
theorem C5_witness :
    decideFollowUp (.followUp fuW) rFuW.entry.response_transcript ((envFuW 1).gemini)
        = (false, none) ∧
    askFrom "out" envFuW (.question qW) [q2W] 0 [] =
      advance "out" envFuW [q2W] 2 [rParentW.entry, rFuW.entry] := by
  have h := C5_follow_up_insertion "out" envFuW qW fuW [q2W] 0 [] rParentW rFuW
    (by decide) (by decide) (by decide)
  simpa using h

/-- C6: an item whose transcript is empty after stripping never invokes
the selector and asks no follow-up — the decision is `(false, none)` —
and the loop simply advances, even when follow-up candidates are
configured. -/
theorem C6_empty_transcript_skips_selector (outDir : String) (env : Nat → AskOutcome)
    (item : Item) (rest : List Question) (k : Nat) (acc : List TranscriptEntry)
    (r : AskResult) (hstep : askStep outDir item (env k) = .ok r)
    (h : pyStrip r.entry.response_transcript = "") :
    decideFollowUp item r.entry.response_transcript ((env k).gemini) = (false, none) ∧
    askFrom outDir env item rest k acc =
      advance outDir env rest (k + 1) (acc ++ [r.entry]) := by
  have hdec : decideFollowUp item r.entry.response_transcript ((env k).gemini)
      = (false, none) := by
    cases item with
    | question q =>
      show (if q.follow_ups ≠ [] ∧ pyStrip r.entry.response_transcript ≠ ""
            then (true, (select_follow_up q ((env k).gemini)).1)
            else (false, none)) = (false, none)
      rw [if_neg]
      intro hc
      exact hc.2 h
    | followUp f => rfl
  exact ⟨hdec, askFrom_step_noFu outDir env item rest k acc r hstep
    (by rw [hdec])⟩

/-- C6 witness: a question with a configured follow-up whose simulated
transcription is whitespace only. -/
theorem C6_witness :
    decideFollowUp (.question qW) rEmptyW.entry.response_transcript ((oEmptyW).gemini)
        = (false, none) ∧
    askFrom "out" (fun _ => oEmptyW) (.question qW) [] 0 [] =
      advance "out" (fun _ => oEmptyW) [] 1 [rEmptyW.entry] := by
  have h := C6_empty_transcript_skips_selector "out" (fun _ => oEmptyW)
    (.question qW) [] 0 [] rEmptyW (by decide) (by decide)
  simpa using h

/-- C7: the follow-up selector fails open and never raises: a service
exception yields no follow-up (with no retry — the call is consulted
once); a reply whose stripped form upper-cases to the sentinel NONE
yields no follow-up; otherwise a reply exactly equal to a candidate id
yields that candidate, and a reply matching no candidate logs a
diagnostic and yields no follow-up. -/
theorem C7_selector_fails_open (q : Question) (g : Except Unit String) :
    (∀ u : Unit, g = .error u → (select_follow_up q g).1 = none) ∧
    (∀ reply, g = .ok reply →
      ((pyUpper (pyStrip reply) = "NONE" → (select_follow_up q g).1 = none) ∧
       (pyUpper (pyStrip reply) ≠ "NONE" →
         ((∀ fu, q.follow_ups.find? (fun f => f.id == pyStrip reply) = some fu →
             (select_follow_up q g).1 = some fu ∧ fu.id = pyStrip reply) ∧
          (q.follow_ups.find? (fun f => f.id == pyStrip reply) = none →
             (select_follow_up q g).1 = none ∧
             ("Gemini returned unknown follow-up id: " ++ pyStrip reply)
               ∈ (select_follow_up q g).2))))) := by
  constructor
  · intro u hg
    subst hg
    rfl
  · intro reply hg
    subst hg
    constructor
    · intro hs
      rw [select_follow_up_ok_eq, if_pos hs]
    · intro hs
      constructor
      · intro fu hfind
        have hp := List.find?_some hfind
        have hid : fu.id = pyStrip reply := by simpa using hp
        refine ⟨?_, hid⟩
        rw [select_follow_up_ok_eq, if_neg hs, hfind]
      · intro hfind
        constructor
        · rw [select_follow_up_ok_eq, if_neg hs, hfind]
        · rw [select_follow_up_ok_eq, if_neg hs, hfind]
          simp

/-- C8: with every ask succeeding and the selector never choosing a
follow-up, a scenario with N top-level questions yields exactly N
entries carrying the question ids in scenario order, and the flushed
document holds the scenario name, the completion timestamp and those
entries in append order. -/
theorem C8_entries_match_questions (outDir : String) (env : Nat → AskOutcome)
    (doneTs : Nat) (s : Scenario)
    (henv : ∀ k, (env k).tts = .ok () ∧ (∃ t, (env k).stt = .ok t) ∧
                 ((env k).raw_audio = [] ∨ (env k).save_ok = true))
    (hsel : ∀ (q : Question) (k : Nat), (select_follow_up q ((env k).gemini)).1 = none) :
    ∃ entries, runInterview outDir env doneTs s =
        .ok { scenario := s.name, completed_at := doneTs, entries := entries } ∧
      entries.map TranscriptEntry.question_id = s.questions.map Question.id := by
  obtain ⟨new, hnew, hmap⟩ := advance_ids outDir env henv hsel s.questions 0 []
  refine ⟨new, ?_, hmap⟩
  unfold runInterview
  rw [hnew]
  rfl

/-- C8 witness: the two-question demo scenario with Gemini always
replying NONE. -/
theorem C8_witness :
    ∃ entries, runInterview "out" envNoneW 9 scenW =
        .ok { scenario := "demo", completed_at := 9, entries := entries } ∧
      entries.map TranscriptEntry.question_id = ["q1", "q2"] := by
  have h := C8_entries_match_questions "out" envNoneW 9 scenW
    (fun k => ⟨rfl, ⟨"it was confusing", rfl⟩, Or.inr rfl⟩)
    (fun q k => rfl)
  simpa [scenW, qW, q2W] using h

/-- C9: the Audio Pipeline's idempotence: `stop()` when not recording
returns the empty recording without raising; a second `start()` without
an intervening `stop()` is a no-op (so no buffered audio is
duplicated); and a fresh `start()` clears the complete-recording buffer
and the delivery queue before capture begins. -/
theorem C9_recorder_idempotence (s : RecorderState) :
    (s.recording = false → AudioRecorder.stop s = .ok (s, [])) ∧
    AudioRecorder.start (AudioRecorder.start s) = AudioRecorder.start s ∧
    (s.recording = false →
      (AudioRecorder.start s).frames = [] ∧ (AudioRecorder.start s).queue = []) := by
  refine ⟨?_, ?_, ?_⟩
  · intro h
    simp [AudioRecorder.stop, h]
  · by_cases h : s.recording <;> simp [AudioRecorder.start, h]
  · intro h
    simp [AudioRecorder.start, h]

/-- C10: every appended entry carries `audio_file = outDir/<id>.wav`
derived from the item id, even when the captured audio is empty and no
wav file was written — so the reference may name a file that does not
exist. -/
theorem C10_audio_reference_always_set (outDir : String) (item : Item)
    (o : AskOutcome) (r : AskResult) (h : askStep outDir item o = .ok r) :
    r.entry.audio_file = outDir ++ "/" ++ item.id ++ ".wav" ∧
    (o.raw_audio = [] → r.wav_written = false) := by
  rcases htts : o.tts with e | u
  · have he : askStep outDir item o = .error e := by
      unfold askStep
      rw [htts]
    rw [he] at h
    cases h
  · cases u
    rcases hstt : o.stt with e | t
    · have he : askStep outDir item o = .error e := by
        unfold askStep
        rw [htts, hstt]
      rw [he] at h
      cases h
    · by_cases hr : o.raw_audio = []
      · have he := askStep_eq_ok outDir item o t htts hstt (Or.inl hr)
        rw [he] at h
        injection h with h2
        subst h2
        exact ⟨rfl, fun _ => by simp [hr]⟩
      · by_cases hs : o.save_ok = true
        · have he := askStep_eq_ok outDir item o t htts hstt (Or.inr hs)
          rw [he] at h
          injection h with h2
          subst h2
          exact ⟨rfl, fun hraw => absurd hraw hr⟩
        · have hs4 : o.save_ok = false := by
            revert hs
            cases o.save_ok <;> simp
          have he := askStep_eq_save_error outDir item o t htts hstt hr hs4
          rw [he] at h
          cases h

/-- C10 witness: the empty-capture ask still carries the wav path. -/
theorem C10_witness :
    rEmptyW.entry.audio_file = "out/q1.wav" ∧
    (oEmptyW.raw_audio = [] → rEmptyW.wav_written = false) := by
  have h := C10_audio_reference_always_set "out" (.question qW) oEmptyW rEmptyW
    (by decide)
  simpa using h

end HaipPoc
